import Mathlib

/-!
Verification of the search-execution core of the humio-mcp repository
(`src/humio_mcp/humio_client.py`) against its specification.

Python strings are embedded as `List Char`; machine integers are `Int`/`Nat`
(Python integers are unbounded); fallible code returns `Except Exc`.
Calls into the Python standard library that the repository makes
(`json.loads`, `datetime.datetime.fromisoformat`) are parameters of the
embedding, constrained by hypotheses where a claim depends on them; the
documented range limits of `datetime.timedelta` and `datetime.datetime`
(OverflowError outside them) are embedded explicitly because the relative
time computation hits them.  Network effects are embedded as oracles: an
environment records the outcome of each remote call, and the functions
return, alongside their result, the trace of job deletions attempted.
-/

set_option maxHeartbeats 1000000
set_option maxRecDepth 10000

namespace HumioMcp

/-- Exception classes relevant to the client: ValueError from time parsing
(InvalidTimeFormat in the spec taxonomy), OverflowError from datetime range
violations, httpx.HTTPStatusError (from raise_for_status), KeyError (missing
"id" in the create response), the four retryable transport errors of
`_RETRYABLE_ERRORS`, asyncio.CancelledError, RuntimeError, and a catch-all. -/
inductive Exc where
  | invalidTimeFormat : Exc
  | overflowError : Exc
  | httpStatusError : Nat → Exc
  | keyError : Exc
  | readError : Exc
  | connectError : Exc
  | remoteProtocolError : Exc
  | closeError : Exc
  | cancelledError : Exc
  | runtimeError : Exc
  | otherError : Exc

deriving instance DecidableEq for Exc

/-- Whitespace characters removed by Python `str.strip` (space, tab, newline,
carriage return, vertical tab, form feed), identified by code point. -/
def pyIsSpace (c : Char) : Bool :=
  decide (c.toNat = 32 ∨ c.toNat = 9 ∨ c.toNat = 10 ∨ c.toNat = 13 ∨
    c.toNat = 11 ∨ c.toNat = 12)

/-- Python `str.strip`: drop whitespace from both ends. -/
def pyStrip (s : List Char) : List Char :=
  ((s.dropWhile pyIsSpace).reverse.dropWhile pyIsSpace).reverse

/-- An ASCII decimal digit (code points 48-57), as tested by `str.isdigit`
on the inputs of interest. -/
def isDigitChar (c : Char) : Bool :=
  decide (48 ≤ c.toNat ∧ c.toNat ≤ 57)

/-- Python `str.isdigit`: nonempty and all characters are digits. -/
def pyIsDigit (s : List Char) : Bool :=
  if s = [] then false else s.all isDigitChar

/-- Python `str.lower` (the inputs of interest are ASCII). -/
def pyLower (s : List Char) : List Char := s.map Char.toLower

/-- Python `int` applied to a digit string. -/
def digitsToNat (s : List Char) : Nat :=
  s.foldl (fun a c => a * 10 + (c.toNat - 48)) 0

/-- Membership in the keys of `_RELATIVE_SUFFIXES`. -/
def isRelSuffixChar (c : Char) : Bool :=
  decide (c = 's' ∨ c = 'm' ∨ c = 'h' ∨ c = 'd' ∨ c = 'w')

/-- Milliseconds per unit for each `_RELATIVE_SUFFIXES` key, as consumed by
`datetime.timedelta` (seconds, minutes, hours, days, weeks). -/
def unitToMs (c : Char) : Nat :=
  if c = 's' then 1000
  else if c = 'm' then 60000
  else if c = 'h' then 3600000
  else if c = 'd' then 86400000
  else if c = 'w' then 604800000
  else 0

/-- Embedding of `_is_relative_time`: empty strings are rejected, the string
is stripped, and it must have length at least 2, end in a relative suffix,
and have all remaining characters digits. -/
def _is_relative_time (t : List Char) : Bool :=
  if t = [] then false
  else
    let t2 := pyStrip t
    decide (2 ≤ t2.length) &&
      (match t2.getLast? with
        | some c => isRelSuffixChar c
        | none => false) &&
      pyIsDigit t2.dropLast

/-- Embedding of `t.replace("Z", "+00:00")` (every occurrence replaced). -/
def replaceZ : List Char → List Char
  | [] => []
  | c :: rest =>
    if c = 'Z' then '+' :: '0' :: '0' :: ':' :: '0' :: '0' :: replaceZ rest
    else c :: replaceZ rest

/-- Epoch milliseconds of `datetime.datetime.min` at UTC
(0001-01-01T00:00:00+00:00); `datetime - timedelta` raises OverflowError
below this instant. -/
def minDatetimeMs : Int := -62135596800000

/-- Milliseconds of `datetime.timedelta.max + 1 microsecond-ish` boundary:
`timedelta` raises OverflowError when the normalized days component exceeds
999999999, i.e. for any whole-millisecond delta of at least
10^9 * 86400000 ms. -/
def timedeltaLimitMs : Nat := 86400000000000000

/-- Embedding of `_to_epoch_ms`.  `now` is the sampled value of
`datetime.datetime.now(timezone.utc)` in epoch milliseconds; `isoParse`
models `datetime.datetime.fromisoformat` followed by the UTC default for
naive results and `int(dt.timestamp() * 1000)`, returning `none` when
`fromisoformat` raises ValueError.  The relative branch returns
`now - amount * unit` and raises OverflowError exactly where the
timedelta construction or the datetime subtraction would. -/
def _to_epoch_ms (now : Int) (isoParse : List Char → Option Int)
    (t0 : List Char) : Except Exc Int :=
  let t := pyStrip t0
  if _is_relative_time t then
    match t.getLast? with
    | some u =>
      let amount := digitsToNat t.dropLast
      let deltaMs := amount * unitToMs u
      if timedeltaLimitMs ≤ deltaMs then Except.error Exc.overflowError
      else if now - (deltaMs : Int) < minDatetimeMs then
        Except.error Exc.overflowError
      else Except.ok (now - (deltaMs : Int))
    | none => Except.error Exc.invalidTimeFormat
  else if pyIsDigit t then Except.ok (digitsToNat t : Int)
  else
    match isoParse (replaceZ t) with
    | some v => Except.ok v
    | none => Except.error Exc.invalidTimeFormat

/-- Embedding of the end-time resolution at the top of `execute_search`
(lines 396-399): `end.strip().lower() == "now"` short-circuits to the
current clock sample, otherwise `_to_epoch_ms` is used. -/
def resolveEndMs (now : Int) (isoParse : List Char → Option Int)
    (endRaw : List Char) : Except Exc Int :=
  if pyLower (pyStrip endRaw) = ['n', 'o', 'w'] then Except.ok now
  else _to_epoch_ms now isoParse endRaw

/-- Python `text.split("\n")`: split on every newline, keeping empty
segments (the result always has one more segment than there are newlines). -/
def pySplitNl : List Char → List (List Char)
  | [] => [[]]
  | c :: rest =>
    match pySplitNl rest with
    | [] => [[c]]
    | l :: ls => if c = '\n' then [] :: l :: ls else (c :: l) :: ls

/-- Loop body of `_parse_ndjson`: strip the line, skip it if empty, try
`json.loads` (the `loads` parameter), append on success, skip on
JSONDecodeError (`none`). -/
def ndjsonStep {E : Type} (loads : List Char → Option E)
    (acc : List E) (line : List Char) : List E :=
  let l := pyStrip line
  if l = [] then acc
  else
    match loads l with
    | some v => acc ++ [v]
    | none => acc

/-- Embedding of `_parse_ndjson`: join the chunks, strip the whole text,
return `[]` if empty, otherwise fold the per-line step over the newline
split. -/
def _parse_ndjson {E : Type} (loads : List Char → Option E)
    (lines : List (List Char)) : List E :=
  let text := pyStrip lines.flatten
  if text = [] then []
  else (pySplitNl text).foldl (ndjsonStep loads) []

/-- Per-line summary used to state what `_parse_ndjson` computes: `none` for
blank or unparseable lines, the parsed value otherwise. -/
def ndjsonLineParse {E : Type} (loads : List Char → Option E)
    (l : List Char) : Option E :=
  let l2 := pyStrip l
  if l2 = [] then none else loads l2

/-- The exception classes listed in `_RETRYABLE_ERRORS`. -/
def isRetryableError : Exc → Bool
  | Exc.readError => true
  | Exc.connectError => true
  | Exc.remoteProtocolError => true
  | Exc.closeError => true
  | _ => false

/-- Retry loop of `_stream_search_response` over an oracle giving each
attempt's outcome (`Except.ok` is the accumulated chunk list of a successful
streaming request; `Except.error` is the exception the attempt raised).
Arguments: remaining iterations of `range(max_retries)`, index of the next
attempt, and `last_error`.  Returns the overall outcome paired with the
number of attempts consulted; a non-retryable exception propagates
immediately, and exhaustion re-raises `last_error` (or RuntimeError if none,
matching `raise last_error or RuntimeError(...)`). -/
def streamAttemptLoop (attempts : Nat → Except Exc (List (List Char))) :
    Nat → Nat → Option Exc → Except Exc (List (List Char)) × Nat
  | 0, i, lastError => (Except.error (lastError.getD Exc.runtimeError), i)
  | n + 1, i, _lastError =>
    match attempts i with
    | Except.ok lines => (Except.ok lines, i + 1)
    | Except.error e =>
      if isRetryableError e then streamAttemptLoop attempts n (i + 1) (some e)
      else (Except.error e, i + 1)

/-- Embedding of `_stream_search_response`: `max_retries = 3`, starting at
attempt 0 with no recorded error.  (The linear backoff sleeps do not affect
the value and are not modeled.) -/
def _stream_search_response (attempts : Nat → Except Exc (List (List Char))) :
    Except Exc (List (List Char)) × Nat :=
  streamAttemptLoop attempts 3 0 none

/-- One poll response of the job API, with both fields optional as in the
raw JSON object. -/
structure PollResponse (E : Type) where
  doneField : Option Bool
  eventsField : Option (List E)

deriving instance DecidableEq for PollResponse

/-- One iteration of the `_poll_query_job` loop body:
`done = data.get("done", False)`, `events = data.get("events", [])`,
return the events if done, otherwise signal another iteration. -/
def pollStep {E : Type} (r : PollResponse E) : Option (List E) :=
  let done := r.doneField.getD false
  let events := r.eventsField.getD []
  if done then some events else none

/-- Embedding of the `_poll_query_job` loop over an oracle of successive
poll responses.  The Python loop is unbounded; the fuel argument bounds how
many polls are observed, and `none` means the loop was still polling after
that many responses.  The fixed sleep between polls does not affect the
value and is not modeled. -/
def _poll_query_job {E : Type} (resps : Nat → PollResponse E) :
    Nat → Nat → Option (List E)
  | 0, _ => none
  | n + 1, i =>
    match pollStep (resps i) with
    | some evs => some evs
    | none => _poll_query_job resps n (i + 1)

/-- The metadata dict built at the end of `execute_search`. -/
structure SearchResultMeta where
  total_before_limit : Nat
  max_results : Nat
  truncated : Bool

deriving instance DecidableEq for SearchResultMeta

/-- The SearchResult model returned by `execute_search` (`stop` embeds the
`end` field, a Lean keyword). -/
structure SearchResult (E : Type) where
  cluster : List Char
  repo : List Char
  query_string : List Char
  start : List Char
  stop : List Char
  events : List E
  total_events : Nat
  metadata : SearchResultMeta

instance {E : Type} [DecidableEq E] : DecidableEq (SearchResult E) :=
  fun a b =>
    decidable_of_iff
      (a.cluster = b.cluster ∧ a.repo = b.repo ∧
        a.query_string = b.query_string ∧ a.start = b.start ∧
        a.stop = b.stop ∧ a.events = b.events ∧
        a.total_events = b.total_events ∧ a.metadata = b.metadata)
      (by cases a; cases b; simp [SearchResult.mk.injEq, and_assoc])

/-- Tail of `execute_search` (lines 427-442): truncate to `max_results`,
report the truncated length as `total_events`, and record the
pre-truncation length and the `len(events) > max_results` flag. -/
def buildSearchResult {E : Type} (cluster repo qs startRaw endRaw : List Char)
    (events : List E) (max_results : Nat) : SearchResult E :=
  let truncated := events.take max_results
  ⟨cluster, repo, qs, startRaw, endRaw, truncated, truncated.length,
    ⟨events.length, max_results, decide (events.length > max_results)⟩⟩

/-- Oracle environment for one `execute_search` run: the outcome of the
job-create request (`Except.ok` carries the `id` field, `Except.error
Exc.keyError` a create response without one), the outcome of the poll loop,
and the per-attempt outcomes of the streaming fallback requests. -/
structure SearchEnv (E : Type) where
  createResult : Except Exc (List Char)
  pollResult : Except Exc (List E)
  streamChunkAttempts : Nat → Except Exc (List (List Char))

/-- Outcome of `execute_search`: the returned result or propagated
exception, together with the trace of job ids whose deletion was attempted
(`_delete_query_job` swallows its own failures, so only the attempt is
observable). -/
structure ExecOutcome (E : Type) where
  result : Except Exc (SearchResult E)
  deletes : List (List Char)

instance {e a : Type} [DecidableEq e] [DecidableEq a] :
    DecidableEq (Except e a) := fun x y =>
  match x, y with
  | Except.ok u, Except.ok v => decidable_of_iff (u = v) (by simp)
  | Except.error u, Except.error v => decidable_of_iff (u = v) (by simp)
  | Except.ok _, Except.error _ => isFalse (fun h => Except.noConfusion h)
  | Except.error _, Except.ok _ => isFalse (fun h => Except.noConfusion h)

instance {E : Type} [DecidableEq E] : DecidableEq (ExecOutcome E) :=
  fun a b =>
    decidable_of_iff (a.result = b.result ∧ a.deletes = b.deletes)
      (by cases a; cases b; simp [ExecOutcome.mk.injEq])

/-- The exception classes named in the `except (httpx.HTTPStatusError,
KeyError)` clause of `execute_search`. -/
def isJobPathCaught : Exc → Bool
  | Exc.httpStatusError _ => true
  | Exc.keyError => true
  | _ => false

/-- The `except` block of `execute_search`: `job_id` has just been reset to
`None`, so the `finally` clause attempts no deletion on this path; the
streaming fallback runs and its events are parsed, or its exception
propagates. -/
def streamFallbackOutcome {E : Type} (env : SearchEnv E)
    (loads : List Char → Option E) (cluster repo qs startRaw endRaw : List Char)
    (max_results : Nat) : ExecOutcome E :=
  match (_stream_search_response env.streamChunkAttempts).fst with
  | Except.ok lines =>
    ⟨Except.ok (buildSearchResult cluster repo qs startRaw endRaw
      (_parse_ndjson loads lines) max_results), []⟩
  | Except.error e => ⟨Except.error e, []⟩

/-- The `finally: if job_id:` guard (line 423) with `job_id` still set to a
string id: Python truthiness makes it attempt deletion only when the id is
nonempty, so a create response with `\x7b"id": ""\x7d` is never deleted. -/
def finallyDeletes (jobId : List Char) : List (List Char) :=
  if jobId = [] then [] else [jobId]

/-- The `try/except/finally` of `execute_search` (lines 412-442): on a
successful create the poll result decides the path; caught classes divert to
the fallback with `job_id` cleared, anything else propagates with the
deletion still attempted by `finally` when the id is truthy; a create
failure leaves `job_id` unset, so no deletion is ever attempted on that
side. -/
def execute_search_core {E : Type} (env : SearchEnv E)
    (loads : List Char → Option E) (cluster repo qs startRaw endRaw : List Char)
    (max_results : Nat) : ExecOutcome E :=
  match env.createResult with
  | Except.error e =>
    if isJobPathCaught e then
      streamFallbackOutcome env loads cluster repo qs startRaw endRaw max_results
    else ⟨Except.error e, []⟩
  | Except.ok jobId =>
    match env.pollResult with
    | Except.ok events =>
      ⟨Except.ok (buildSearchResult cluster repo qs startRaw endRaw events
        max_results), finallyDeletes jobId⟩
    | Except.error e =>
      if isJobPathCaught e then
        streamFallbackOutcome env loads cluster repo qs startRaw endRaw
          max_results
      else ⟨Except.error e, finallyDeletes jobId⟩

/-- Embedding of `execute_search`: resolve the end then the start time
expression (either failure propagates before any network call), then run the
job/fallback state machine.  The resolved milliseconds only enter the remote
payload, whose server-side effect the oracle environment already encodes. -/
def execute_search {E : Type} (now : Int) (isoParse : List Char → Option Int)
    (env : SearchEnv E) (loads : List Char → Option E)
    (cluster repo qs startRaw endRaw : List Char) (max_results : Nat) :
    ExecOutcome E :=
  match resolveEndMs now isoParse endRaw with
  | Except.error e => ⟨Except.error e, []⟩
  | Except.ok _ =>
    match _to_epoch_ms now isoParse startRaw with
    | Except.error e => ⟨Except.error e, []⟩
    | Except.ok _ =>
      execute_search_core env loads cluster repo qs startRaw endRaw max_results

theorem dropWhile_eq_self_of_not (p : Char → Bool) (s : List Char)
    (h : ∀ c ∈ s, p c = false) : s.dropWhile p = s := by
  cases s with
  | nil => rfl
  | cons a t => simp [List.dropWhile, h a (List.mem_cons_self a t)]

theorem pyStrip_eq_self (s : List Char)
    (h : ∀ c ∈ s, pyIsSpace c = false) : pyStrip s = s := by
  unfold pyStrip
  rw [dropWhile_eq_self_of_not _ s h]
  rw [dropWhile_eq_self_of_not _ s.reverse
    (fun c hc => h c (List.mem_reverse.mp hc))]
  exact List.reverse_reverse s

theorem digit_not_space (c : Char) (h : isDigitChar c = true) :
    pyIsSpace c = false := by
  unfold isDigitChar at h
  have hd := of_decide_eq_true h
  unfold pyIsSpace
  apply decide_eq_false
  omega

theorem rel_suffix_not_space (c : Char) (h : isRelSuffixChar c = true) :
    pyIsSpace c = false := by
  unfold isRelSuffixChar at h
  have hd := of_decide_eq_true h
  rcases hd with rfl | rfl | rfl | rfl | rfl <;> decide

theorem ndjson_foldl_eq {E : Type} (loads : List Char → Option E)
    (ls : List (List Char)) (acc : List E) :
    ls.foldl (ndjsonStep loads) acc = acc ++ ls.filterMap (ndjsonLineParse loads) := by
  induction ls generalizing acc with
  | nil => simp
  | cons a t ih =>
    simp only [List.foldl_cons, List.filterMap_cons, ndjsonStep, ndjsonLineParse]
    by_cases h : pyStrip a = []
    · simp [h, ih]
    · simp only [if_neg h]
      cases hl : loads (pyStrip a) with
      | none => simp [ih]
      | some v => simp [ih, List.append_assoc]

theorem parse_ndjson_eq_filterMap {E : Type} (loads : List Char → Option E)
    (lines : List (List Char)) :
    _parse_ndjson loads lines
      = (pySplitNl (pyStrip lines.flatten)).filterMap (ndjsonLineParse loads) := by
  unfold _parse_ndjson
  by_cases h : pyStrip lines.flatten = []
  · simp only [h, if_pos rfl, pySplitNl]
    simp [ndjsonLineParse, pyStrip]
  · simp only [if_neg h]
    exact (ndjson_foldl_eq loads _ []).trans (by simp)

/-- Claim C6: NDJSON decoding splits on line breaks, trims each line, skips
empty lines, parses each remaining line independently, silently skips lines
that fail to parse, and keeps input line order; on the specimen input with
one malformed line, exactly the two well-formed values are produced in
order. -/
theorem claim_c6 {E : Type} (loads : List Char → Option E) (a b : E)
    (ha : loads "\x7b\"a\":1\x7d".data = some a)
    (hbad : loads "badline".data = none)
    (hb : loads "\x7b\"b\":2\x7d".data = some b) :
    _parse_ndjson loads ["\x7b\"a\":1\x7d\nbadline\n\x7b\"b\":2\x7d".data]
      = [a, b] ∧
    ∀ lines, _parse_ndjson loads lines
      = (pySplitNl (pyStrip lines.flatten)).filterMap (ndjsonLineParse loads) := by
  refine ⟨?_, fun lines => parse_ndjson_eq_filterMap loads lines⟩
  rw [parse_ndjson_eq_filterMap]
  have hsplit : pySplitNl (pyStrip (["\x7b\"a\":1\x7d\nbadline\n\x7b\"b\":2\x7d".data].flatten))
      = ["\x7b\"a\":1\x7d".data, "badline".data, "\x7b\"b\":2\x7d".data] := by decide
  rw [hsplit]
  have e1 : pyStrip "\x7b\"a\":1\x7d".data = "\x7b\"a\":1\x7d".data := by decide
  have e2 : pyStrip "badline".data = "badline".data := by decide
  have e3 : pyStrip "\x7b\"b\":2\x7d".data = "\x7b\"b\":2\x7d".data := by decide
  simp only [List.filterMap_cons, ndjsonLineParse, e1, e2, e3, ha, hbad, hb]
  simp

/-- A concrete json.loads stand-in for the C6 specimen lines, used by the
witness below. -/
def c6loads : List Char → Option Nat := fun l =>
  if l = "\x7b\"a\":1\x7d".data then some 1
  else if l = "\x7b\"b\":2\x7d".data then some 2
  else none

theorem claim_c6_witness :
    _parse_ndjson c6loads ["\x7b\"a\":1\x7d\nbadline\n\x7b\"b\":2\x7d".data]
      = [1, 2] :=
  (claim_c6 c6loads 1 2 (by decide) (by decide) (by decide)).1

/-- Claim C9: NDJSON parsing of a chunk list equals NDJSON parsing of the
single chunk holding their concatenation, so chunk boundaries never change
the decoded events. -/
theorem claim_c9 {E : Type} (loads : List Char → Option E)
    (lines : List (List Char)) :
    _parse_ndjson loads lines = _parse_ndjson loads [lines.flatten] := by
  unfold _parse_ndjson
  simp

/-- Claim C10: polling never fails on missing response fields: a response
without a "done" field behaves as done=false and the loop polls again, and a
done=true response without an "events" field yields the empty event list. -/
theorem claim_c10 {E : Type} :
    (∀ r : PollResponse E, r.doneField = none → pollStep r = none) ∧
    (∀ (resps : Nat → PollResponse E) (fuel i : Nat),
      (resps i).doneField = none →
      _poll_query_job resps (fuel + 1) i = _poll_query_job resps fuel (i + 1)) ∧
    (∀ r : PollResponse E, r.doneField = some true → r.eventsField = none →
      pollStep r = some []) := by
  refine ⟨fun r h => ?_, fun resps fuel i h => ?_, fun r h1 h2 => ?_⟩
  · simp [pollStep, h]
  · simp [_poll_query_job, pollStep, h]
  · simp [pollStep, h1, h2]

theorem claim_c10_witness :
    pollStep (⟨none, some [5]⟩ : PollResponse Nat) = none ∧
    pollStep (⟨some true, none⟩ : PollResponse Nat) = some [] :=
  ⟨(@claim_c10 Nat).1 ⟨none, some [5]⟩ rfl,
    (@claim_c10 Nat).2.2 ⟨some true, none⟩ rfl rfl⟩

/-- Claim C2: when all three streaming attempts fail with retryable
transport errors, the executor raises the third failure itself after exactly
3 attempts; the outcome is unchanged by whatever a hypothetical 4th attempt
would have returned. -/
theorem claim_c2 (attempts : Nat → Except Exc (List (List Char)))
    (e0 e1 e2 : Exc)
    (h0 : attempts 0 = Except.error e0) (hr0 : isRetryableError e0 = true)
    (h1 : attempts 1 = Except.error e1) (hr1 : isRetryableError e1 = true)
    (h2 : attempts 2 = Except.error e2) (hr2 : isRetryableError e2 = true) :
    _stream_search_response attempts = (Except.error e2, 3) ∧
    ∀ attempts2 : Nat → Except Exc (List (List Char)),
      attempts2 0 = attempts 0 → attempts2 1 = attempts 1 →
      attempts2 2 = attempts 2 →
      _stream_search_response attempts2 = (Except.error e2, 3) := by
  constructor
  · simp [_stream_search_response, streamAttemptLoop, h0, h1, h2, hr0, hr1,
      hr2]
  · intro attempts2 g0 g1 g2
    rw [h0] at g0; rw [h1] at g1; rw [h2] at g2
    simp [_stream_search_response, streamAttemptLoop, g0, g1, g2, hr0, hr1,
      hr2]

theorem claim_c2_witness :
    _stream_search_response (fun _ => Except.error Exc.readError)
      = (Except.error Exc.readError, 3) :=
  (claim_c2 (fun _ => Except.error Exc.readError)
    Exc.readError Exc.readError Exc.readError
    rfl rfl rfl rfl rfl rfl).1

/-- Claim C3: for every event sequence of length L reaching the truncation
step and every maxResults M, the result holds the first min(L, M) events in
order, totalEvents = min(L, M), totalBeforeLimit = L and
truncated = (L > M); both the job path and the streaming fallback path feed
their event sequence into this same construction. -/
theorem claim_c3 {E : Type} (cluster repo qs s e : List Char) (M : Nat) :
    (∀ events : List E,
      (buildSearchResult cluster repo qs s e events M).events = events.take M ∧
      (buildSearchResult cluster repo qs s e events M).total_events
        = min events.length M ∧
      (buildSearchResult cluster repo qs s e events M).metadata.total_before_limit
        = events.length ∧
      (buildSearchResult cluster repo qs s e events M).metadata.truncated
        = decide (events.length > M)) ∧
    (∀ (env : SearchEnv E) (loads : List Char → Option E)
      (jobId : List Char) (events : List E),
      env.createResult = Except.ok jobId → env.pollResult = Except.ok events →
      (execute_search_core env loads cluster repo qs s e M).result
        = Except.ok (buildSearchResult cluster repo qs s e events M)) ∧
    (∀ (env : SearchEnv E) (loads : List Char → Option E) (exc : Exc)
      (lines : List (List Char)),
      env.createResult = Except.error exc → isJobPathCaught exc = true →
      (_stream_search_response env.streamChunkAttempts).fst
        = Except.ok lines →
      (execute_search_core env loads cluster repo qs s e M).result
        = Except.ok (buildSearchResult cluster repo qs s e
            (_parse_ndjson loads lines) M)) := by
  refine ⟨fun events => ⟨rfl, ?_, rfl, rfl⟩,
    fun env loads jobId events hc hp => ?_, fun env loads exc lines hc hcaught hs => ?_⟩
  · simp [buildSearchResult, List.length_take, Nat.min_comm]
  · simp [execute_search_core, hc, hp]
  · simp [execute_search_core, hc, hcaught, streamFallbackOutcome, hs]

theorem claim_c3_witness :
    (execute_search_core
      (⟨Except.ok ['j'], Except.ok [0, 1, 2], fun _ => Except.ok []⟩ :
        SearchEnv Nat)
      (fun _ => none) [] [] [] [] [] 2).result
      = Except.ok (buildSearchResult [] [] [] [] [] [0, 1, 2] 2) :=
  (claim_c3 [] [] [] [] [] 2).2.1
    ⟨Except.ok ['j'], Except.ok [0, 1, 2], fun _ => Except.ok []⟩
    (fun _ => none) ['j'] [0, 1, 2] rfl rfl

/-- Claim C4: when job creation fails with an HTTP error status or the
create response lacks an id field, no job deletion is attempted and the
streaming fallback runs instead; the job path is not retried (the outcome is
independent of the poll oracle, which is never consulted). -/
theorem claim_c4 {E : Type} (now : Int) (isoParse : List Char → Option Int)
    (loads : List Char → Option E) (exc : Exc)
    (pollR : Except Exc (List E))
    (attempts : Nat → Except Exc (List (List Char)))
    (cluster repo qs startRaw endRaw : List Char) (M : Nat)
    (hend : ∃ v, resolveEndMs now isoParse endRaw = Except.ok v)
    (hstart : ∃ v, _to_epoch_ms now isoParse startRaw = Except.ok v)
    (hexc : (∃ code, exc = Exc.httpStatusError code) ∨ exc = Exc.keyError) :
    execute_search now isoParse
        (⟨Except.error exc, pollR, attempts⟩ : SearchEnv E) loads
        cluster repo qs startRaw endRaw M
      = streamFallbackOutcome ⟨Except.error exc, pollR, attempts⟩ loads
          cluster repo qs startRaw endRaw M ∧
    (execute_search now isoParse
        (⟨Except.error exc, pollR, attempts⟩ : SearchEnv E) loads
        cluster repo qs startRaw endRaw M).deletes = [] := by
  obtain ⟨ve, hend⟩ := hend
  obtain ⟨vs, hstart⟩ := hstart
  have hcaught : isJobPathCaught exc = true := by
    rcases hexc with ⟨code, rfl⟩ | rfl <;> rfl
  have hmain : execute_search now isoParse
      (⟨Except.error exc, pollR, attempts⟩ : SearchEnv E) loads
      cluster repo qs startRaw endRaw M
      = streamFallbackOutcome ⟨Except.error exc, pollR, attempts⟩ loads
          cluster repo qs startRaw endRaw M := by
    simp [execute_search, hend, hstart, execute_search_core, hcaught]
  refine ⟨hmain, ?_⟩
  rw [hmain]
  unfold streamFallbackOutcome
  cases hres : (_stream_search_response attempts).fst <;> simp [hres]

theorem claim_c4_witness :
    execute_search 0 (fun _ => none)
        (⟨Except.error Exc.keyError, Except.ok [], fun _ => Except.ok []⟩ :
          SearchEnv Nat)
        (fun _ => none) [] [] [] "0".data "now".data 5
      = streamFallbackOutcome
          ⟨Except.error Exc.keyError, Except.ok [], fun _ => Except.ok []⟩
          (fun _ => none) [] [] [] "0".data "now".data 5 ∧
    (execute_search 0 (fun _ => none)
        (⟨Except.error Exc.keyError, Except.ok [], fun _ => Except.ok []⟩ :
          SearchEnv Nat)
        (fun _ => none) [] [] [] "0".data "now".data 5).deletes = [] :=
  claim_c4 0 (fun _ => none) (fun _ => none) Exc.keyError (Except.ok [])
    (fun _ => Except.ok []) [] [] [] "0".data "now".data 5
    ⟨0, by decide⟩ ⟨0, by decide⟩ (Or.inr rfl)

/-- Claim C5: when the job path fails with a job-API-unavailable signal
(either at create, or at poll after a successful create) and the streaming
fallback then also fails, execute_search fails with the fallback's terminal
error; the job-path error never surfaces. -/
theorem claim_c5 {E : Type} (now : Int) (isoParse : List Char → Option Int)
    (loads : List Char → Option E) (exc e2 : Exc) (jobId : List Char)
    (pollR : Except Exc (List E))
    (attempts : Nat → Except Exc (List (List Char)))
    (cluster repo qs startRaw endRaw : List Char) (M : Nat)
    (hend : ∃ v, resolveEndMs now isoParse endRaw = Except.ok v)
    (hstart : ∃ v, _to_epoch_ms now isoParse startRaw = Except.ok v)
    (hcaught : isJobPathCaught exc = true)
    (hstream : (_stream_search_response attempts).fst = Except.error e2) :
    (execute_search now isoParse
        (⟨Except.error exc, pollR, attempts⟩ : SearchEnv E) loads
        cluster repo qs startRaw endRaw M).result = Except.error e2 ∧
    (execute_search now isoParse
        (⟨Except.ok jobId, Except.error exc, attempts⟩ : SearchEnv E) loads
        cluster repo qs startRaw endRaw M).result = Except.error e2 := by
  obtain ⟨ve, hend⟩ := hend
  obtain ⟨vs, hstart⟩ := hstart
  constructor <;>
    simp [execute_search, hend, hstart, execute_search_core, hcaught,
      streamFallbackOutcome, hstream]

theorem claim_c5_witness :
    (execute_search 0 (fun _ => none)
        (⟨Except.error Exc.keyError, Except.ok [],
          fun _ => Except.error Exc.readError⟩ : SearchEnv Nat)
        (fun _ => none) [] [] [] "0".data "now".data 5).result
      = Except.error Exc.readError ∧
    (execute_search 0 (fun _ => none)
        (⟨Except.ok ['j'], Except.error Exc.keyError,
          fun _ => Except.error Exc.readError⟩ : SearchEnv Nat)
        (fun _ => none) [] [] [] "0".data "now".data 5).result
      = Except.error Exc.readError :=
  claim_c5 0 (fun _ => none) (fun _ => none) Exc.keyError Exc.readError
    ['j'] (Except.ok []) (fun _ => Except.error Exc.readError)
    [] [] [] "0".data "now".data 5
    ⟨0, by decide⟩ ⟨0, by decide⟩ rfl (by decide)

/-- Claim C1 counterexample: an execution in which job creation succeeds
(id "j" is obtained) but the poll fails with an HTTP status error: the
except clause clears job_id before running the fallback, so the finally
clause attempts no deletion at all, contradicting "deletion is attempted
exactly once on every exit path". -/
theorem claim_c1_counterexample :
    (⟨Except.ok ['j'], Except.error (Exc.httpStatusError 500),
        fun _ => Except.ok []⟩ : SearchEnv Nat).createResult
      = Except.ok ['j'] ∧
    (execute_search 0 (fun _ => none)
        (⟨Except.ok ['j'], Except.error (Exc.httpStatusError 500),
          fun _ => Except.ok []⟩ : SearchEnv Nat)
        (fun _ => none) [] [] [] "0".data "now".data 5).deletes = [] := by
  constructor
  · rfl
  · decide

/-- Claim C1 (amended): once a truthy (nonempty) job id is obtained,
deletion is attempted exactly once when the poll succeeds and when the poll
fails with any uncaught exception (including caller cancellation); but when
the poll fails with one of the caught job-API-unavailable classes the code
clears job_id before falling back, so no deletion is attempted on that
path; and a created job whose id is the falsy empty string is never deleted
either, since the `if job_id:` guard skips it. -/
theorem claim_c1_amended {E : Type} (now : Int)
    (isoParse : List Char → Option Int) (loads : List Char → Option E)
    (jobId : List Char) (attempts : Nat → Except Exc (List (List Char)))
    (cluster repo qs startRaw endRaw : List Char) (M : Nat)
    (hend : ∃ v, resolveEndMs now isoParse endRaw = Except.ok v)
    (hstart : ∃ v, _to_epoch_ms now isoParse startRaw = Except.ok v) :
    (∀ events : List E, jobId ≠ [] →
      (execute_search now isoParse ⟨Except.ok jobId, Except.ok events, attempts⟩
        loads cluster repo qs startRaw endRaw M).deletes = [jobId]) ∧
    (∀ exc : Exc, isJobPathCaught exc = false → jobId ≠ [] →
      (execute_search now isoParse
        (⟨Except.ok jobId, Except.error exc, attempts⟩ : SearchEnv E)
        loads cluster repo qs startRaw endRaw M).deletes = [jobId]) ∧
    (∀ exc : Exc, isJobPathCaught exc = true →
      (execute_search now isoParse
        (⟨Except.ok jobId, Except.error exc, attempts⟩ : SearchEnv E)
        loads cluster repo qs startRaw endRaw M).deletes = []) ∧
    (∀ events : List E,
      (execute_search now isoParse
        (⟨Except.ok [], Except.ok events, attempts⟩ : SearchEnv E)
        loads cluster repo qs startRaw endRaw M).deletes = []) ∧
    (∀ exc : Exc, isJobPathCaught exc = false →
      (execute_search now isoParse
        (⟨Except.ok [], Except.error exc, attempts⟩ : SearchEnv E)
        loads cluster repo qs startRaw endRaw M).deletes = []) := by
  obtain ⟨ve, hend⟩ := hend
  obtain ⟨vs, hstart⟩ := hstart
  refine ⟨fun events hjob => ?_, fun exc hexc hjob => ?_, fun exc hexc => ?_,
    fun events => ?_, fun exc hexc => ?_⟩
  · simp [execute_search, hend, hstart, execute_search_core, finallyDeletes,
      hjob]
  · simp [execute_search, hend, hstart, execute_search_core, finallyDeletes,
      hexc, hjob]
  · simp only [execute_search, hend, hstart, execute_search_core, hexc,
      if_pos]
    unfold streamFallbackOutcome
    cases hres : (_stream_search_response attempts).fst <;> simp [hres]
  · simp [execute_search, hend, hstart, execute_search_core, finallyDeletes]
  · simp [execute_search, hend, hstart, execute_search_core, finallyDeletes,
      hexc]

theorem claim_c1_witness :
    (execute_search 0 (fun _ => none)
        (⟨Except.ok ['j'], Except.error Exc.cancelledError,
          fun _ => Except.ok []⟩ : SearchEnv Nat)
        (fun _ => none) [] [] [] "0".data "now".data 5).deletes = [['j']] :=
  (claim_c1_amended 0 (fun _ => none) (fun _ => none) ['j']
    (fun _ => Except.ok []) [] [] [] "0".data "now".data 5
    ⟨0, by decide⟩ ⟨0, by decide⟩).2.1 Exc.cancelledError rfl
    (by decide)

/-- Claim C7 counterexample: at the concrete clock sample 1760000000000 ms,
resolving "100000000000000s" does not succeed with now - n*unitMs: the
100000000000000-second timedelta exceeds the 999999999-day timedelta limit,
so the code raises OverflowError. -/
theorem claim_c7_counterexample :
    _to_epoch_ms 1760000000000 (fun _ => none)
        ("100000000000000".data ++ ['s'])
      = Except.error Exc.overflowError ∧
    _to_epoch_ms 1760000000000 (fun _ => none)
        ("100000000000000".data ++ ['s'])
      ≠ Except.ok (1760000000000 - (100000000000000000 : Int)) := by
  constructor <;> decide

/-- Claim C7 (amended): for every nonempty digit string n and unit in
{s,m,h,d,w} such that the resulting timedelta stays below the timedelta
limit and the resulting instant does not precede datetime.min, resolving
"{n}{unit}" succeeds and yields exactly now - n*unitMs of the sampled
clock; outside those documented datetime bounds the code raises
OverflowError instead (see the counterexample). -/
theorem claim_c7_amended (now : Int) (isoParse : List Char → Option Int)
    (n : List Char) (u : Char)
    (hn : n ≠ []) (hdig : ∀ c ∈ n, isDigitChar c = true)
    (hsuf : isRelSuffixChar u = true)
    (hofl1 : digitsToNat n * unitToMs u < timedeltaLimitMs)
    (hofl2 : minDatetimeMs ≤ now - (digitsToNat n * unitToMs u : Nat)) :
    _to_epoch_ms now isoParse (n ++ [u])
      = Except.ok (now - (digitsToNat n * unitToMs u : Nat)) := by
  have hns : ∀ c ∈ n ++ [u], pyIsSpace c = false := by
    intro c hc
    rcases List.mem_append.mp hc with hcn | hcu
    · exact digit_not_space c (hdig c hcn)
    · have hcu2 : c = u := by simpa using hcu
      subst hcu2
      exact rel_suffix_not_space c hsuf
  have hstrip : pyStrip (n ++ [u]) = n ++ [u] := pyStrip_eq_self _ hns
  have hne : n ++ [u] ≠ [] := by simp
  have hdigits : pyIsDigit n = true := by
    unfold pyIsDigit
    rw [if_neg hn]
    exact List.all_eq_true.mpr hdig
  have hlen : 2 ≤ (n ++ [u]).length := by
    have hp := List.length_pos.mpr hn
    simp only [List.length_append, List.length_cons, List.length_nil]
    omega
  have hrel : _is_relative_time (n ++ [u]) = true := by
    unfold _is_relative_time
    rw [if_neg hne]
    have hp : 1 ≤ n.length := List.length_pos.mpr hn
    simp [hstrip, List.getLast?_concat, List.dropLast_concat, hlen, hsuf,
      hdigits, hp]
  unfold _to_epoch_ms
  simp only [hstrip, hrel, if_true, List.getLast?_concat,
    List.dropLast_concat]
  rw [if_neg (Nat.not_le.mpr hofl1), if_neg (not_lt.mpr hofl2)]

theorem claim_c7_witness :
    _to_epoch_ms 1700000000000 (fun _ => none) (['2', '4'] ++ ['h'])
      = Except.ok (1700000000000 - ((digitsToNat ['2', '4'] * unitToMs 'h' : Nat) : Int)) :=
  claim_c7_amended 1700000000000 (fun _ => none) ['2', '4'] 'h'
    (by decide) (by decide) (by decide) (by decide) (by decide)

/-- Claim C8: an expression whose stripped, lowered form is "now" resolves
to the sampled current time when given as the end expression; as a start
expression the literal "now" matches none of the recognized forms (the
trailing w is a relative suffix but "no" is not a digit string) and fails
with InvalidTimeFormat once fromisoformat rejects it, as does any expression
matching none of the recognized forms. -/
theorem claim_c8 (now : Int) (isoParse : List Char → Option Int)
    (s u : List Char)
    (hs : pyLower (pyStrip s) = ['n', 'o', 'w'])
    (hnowIso : isoParse (replaceZ ['n', 'o', 'w']) = none)
    (hu1 : _is_relative_time (pyStrip u) = false)
    (hu2 : pyIsDigit (pyStrip u) = false)
    (hu3 : isoParse (replaceZ (pyStrip u)) = none) :
    resolveEndMs now isoParse s = Except.ok now ∧
    _to_epoch_ms now isoParse ['n', 'o', 'w']
      = Except.error Exc.invalidTimeFormat ∧
    _to_epoch_ms now isoParse u = Except.error Exc.invalidTimeFormat := by
  refine ⟨?_, ?_, ?_⟩
  · unfold resolveEndMs
    rw [if_pos hs]
  · unfold _to_epoch_ms
    have h1 : pyStrip ['n', 'o', 'w'] = ['n', 'o', 'w'] := by decide
    have h2 : _is_relative_time ['n', 'o', 'w'] = false := by decide
    have h3 : pyIsDigit ['n', 'o', 'w'] = false := by decide
    simp [h1, h2, h3, hnowIso]
  · unfold _to_epoch_ms
    simp [hu1, hu2, hu3]

theorem claim_c8_witness :
    resolveEndMs 123 (fun _ => none) " NOW ".data = Except.ok 123 ∧
    _to_epoch_ms 123 (fun _ => none) ['n', 'o', 'w']
      = Except.error Exc.invalidTimeFormat ∧
    _to_epoch_ms 123 (fun _ => none) "garbage".data
      = Except.error Exc.invalidTimeFormat :=
  claim_c8 123 (fun _ => none) " NOW ".data "garbage".data
    (by decide) rfl (by decide) (by decide) rfl

end HumioMcp
